import Mathlib

/-!
# Verification of the ODL function-space subsystem

A shallow embedding of `odl/space/fspace.py` (the `FunctionSet` /
`FunctionSpace` classes with their lazy algebraic kernels) and of
`odl/test/operator.py` (`OperatorTest.norm`).

Modelling conventions:
* Field values (`float64` / `complex128` numpy scalars) are modelled as exact
  rationals `ℚ`; the claims under study are structural/algebraic and do not
  concern rounding.
* A vectorized evaluation is pointwise: a numpy elementwise operation
  (`out *= b`, `out += tmp`, ...) acts independently on each array entry, so a
  function element is modelled by its per-point value `P → ℚ` where `P` is an
  abstract point type.  Where a claim is genuinely about whole output buffers
  (the in-place `fill` of `one_apply`) the buffer is modelled as a `List ℚ`.
* Python's sentinel function `_apply_not_impl` (stored in `_apply` when no
  in-place implementation exists, raising `NotImplementedError` when invoked)
  is modelled by the `PyFn.notImpl` constructor.
-/

/-- The `_apply` attribute of a `FunctionSet.Vector`: either the sentinel
`_apply_not_impl` (fspace.py line 46) or an actual in-place evaluation
function, modelled by its per-point value. -/
inductive PyFn (P : Type) where
  | notImpl : PyFn P
  | fn : (P → ℚ) → PyFn P

/-- Whether the `_apply` attribute is an actual implementation (not the
`_apply_not_impl` sentinel). -/
def PyFn.isDefined {P : Type} : PyFn P → Bool
  | .notImpl => false
  | .fn _ => true

/-- The state of a `FunctionSet.Vector` (fspace.py lines 344-395): the
out-of-place evaluation function `_call` (per-point value), the in-place
`_apply` attribute, and the `_vectorized` flag. -/
structure FunctionSet.Vector (P : Type) where
  call : P → ℚ
  apply : PyFn P
  vectorized : Bool

/-- Errors raised by `FunctionSet.Vector.__init__` (fspace.py lines 372-390).
The `callable` checks are not representable (every model value is a
function); `valueErrApplyNotVectorized` is the `ValueError` of line 383,
`typeErrDomainNotIntervalProd` the `TypeError` of line 388. -/
inductive InitErr where
  | valueErrApplyNotVectorized : InitErr
  | typeErrDomainNotIntervalProd : InitErr
deriving DecidableEq

/-- `FunctionSet.Vector.__init__` (fspace.py lines 348-395).  `dip` models
`isinstance(fset.domain, IntervalProd)`.  The `fapply` argument is Python's
optional parameter: `none` is Python `None`; `some pf` means a callable was
passed (which may itself be the `_apply_not_impl` sentinel, `pf = .notImpl`).
On success `_apply` is set to `fapply if fapply is not None else
_apply_not_impl` (line 395). -/
def FunctionSet.Vector.init {P : Type} (dip : Bool) (fcall : P → ℚ)
    (fapply : Option (PyFn P)) (vectorized : Bool) :
    Except InitErr (FunctionSet.Vector P) :=
  if vectorized = false ∧ fapply.isSome then
    .error .valueErrApplyNotVectorized
  else if vectorized = true ∧ dip = false then
    .error .typeErrDomainNotIntervalProd
  else
    .ok { call := fcall, apply := fapply.getD .notImpl,
          vectorized := vectorized }

/-- The first argument of `FunctionSet.element` (fspace.py line 266): either
an existing `Vector` of the same set (`isinstance(fcall, self.Vector)`) or a
raw callable. -/
inductive ElemArg (P : Type) where
  | vec : FunctionSet.Vector P → ElemArg P
  | raw : (P → ℚ) → ElemArg P

/-- `FunctionSet.element` (fspace.py lines 266-304).  The result is
`Except` over the constructor errors; the payload `none` models the Python
method falling off the end and returning `None` (which happens exactly when
`fcall` is already a `Vector` and `fapply is not None`). -/
def FunctionSet.element {P : Type} (dip : Bool) (fcall : ElemArg P)
    (fapply : Option (PyFn P)) (vectorized : Bool) :
    Except InitErr (Option (FunctionSet.Vector P)) :=
  match fcall with
  | .vec v =>
    match fapply with
    | none =>
      if vectorized = v.vectorized then
        .ok (some v)
      else
        -- rebuild carrying over the original's state; note that the stored
        -- `_apply` (possibly the sentinel) is passed as the `fapply`
        -- argument, so Python's `fapply is not None` test sees a callable
        (FunctionSet.Vector.init dip v.call (some v.apply)
          v.vectorized).map some
    | some _ => .ok none
  | .raw f =>
    (FunctionSet.Vector.init dip f fapply vectorized).map some

/-! ## The identity elements `zero` and `one` (fspace.py lines 651-732)

The in-place helpers operate on a whole output buffer via `out.fill(...)`,
so they are modelled at buffer level (`List ℚ`): `fill` overwrites every
entry, keeping the length. -/

/-- `zero_apply` (fspace.py lines 680-683): `out.fill(0.0)`. -/
def FunctionSpace.zero_apply {P : Type} (_x : P) (out : List ℚ) : List ℚ :=
  out.map (fun _ => 0)

/-- `one_apply` (fspace.py lines 721-724): the source executes
`out.fill(0.0)` — it fills the buffer with zeros, not ones. -/
def FunctionSpace.one_apply {P : Type} (_x : P) (out : List ℚ) : List ℚ :=
  out.map (fun _ => 0)

/-- `one_vec` (fspace.py lines 711-719): `np.ones(bcast.shape, ...)` — a
buffer of ones, one entry per evaluation point. -/
def FunctionSpace.one_vec {P : Type} (x : List P) : List ℚ :=
  List.replicate x.length 1

/-! ## The `vectorize` decorator (fspace.py lines 73-227)

`vectorize(dtype, outarg='none')(f)` iterates the input points and evaluates
`f` at each, so per point it computes exactly `f`; the `outarg='positional'`
variant writes `f(pt)` into `out[i]`, again `f` per point.  In the pointwise
model both wrappers are therefore the identity on the per-point value. -/

/-- Per-point value of `vectorize(dtype, outarg='none')(f)`. -/
def vectorize_call {P : Type} (f : P → ℚ) : P → ℚ := f

/-- Per-point value written by `vectorize(dtype, outarg='positional')(f)`. -/
def vectorize_apply {P : Type} (f : P → ℚ) : P → ℚ := f

/-! ## The linear-combination kernel (fspace.py lines 750-831) -/

/-- `lincomb_call` (fspace.py lines 773-794), per evaluation point:
the branch structure mirrors the source (`a == 0 and b != 0`, `b == 0`,
general case), with `out *= a` etc. as exact rational multiplication. -/
def FunctionSpace.lincomb_call {P : Type} (a b : ℚ) (x1_call x2_call : P → ℚ)
    (x : P) : ℚ :=
  if a = 0 ∧ b ≠ 0 then
    let out := x2_call x
    if b ≠ 1 then out * b else out
  else if b = 0 then  -- contains the case a == 0
    let out := x1_call x
    if a ≠ 1 then out * a else out
  else
    let out := x1_call x
    let out := if a ≠ 1 then out * a else out
    let tmp := x2_call x
    let tmp := if b ≠ 1 then tmp * b else tmp
    out + tmp

/-- `lincomb_apply` (fspace.py lines 796-820), per evaluation point.  Each
operand apply overwrites its buffer, so the per-point result depends only on
the point; `out *= 0` (the `a == 0 and b == 0` branch) yields `0` exactly. -/
def FunctionSpace.lincomb_apply {P : Type} (a b : ℚ)
    (x1_apply x2_apply : P → ℚ) (x : P) : ℚ :=
  if a = 0 ∧ b = 0 then 0
  else if a = 0 ∧ b ≠ 0 then
    let out := x2_apply x
    if b ≠ 1 then out * b else out
  else if b = 0 ∧ a ≠ 0 then
    let out := x1_apply x
    if a ≠ 1 then out * a else out
  else
    let out := x1_apply x
    let tmp := x2_apply x
    let out := if a ≠ 1 then out * a else out
    let tmp := if b ≠ 1 then tmp * b else tmp
    out + tmp

/-- `FunctionSpace._lincomb` (fspace.py lines 750-831).  The operand state is
captured first ("Store to allow aliasing", lines 758-762), so the result is a
function of the operand values even when `out` aliases an operand.  A
non-vectorized operand in a vectorized combination is wrapped via
`vectorize` (lines 766-771).  All three fields of `out` are overwritten; the
previous `out` state is irrelevant, so the model returns the new state.
NOTE (line 826): the apply-definedness check is on the possibly *rebound*
locals `x1_apply`/`x2_apply`, not on the original attributes. -/
def FunctionSpace.lincomb {P : Type} (a : ℚ) (x1 : FunctionSet.Vector P)
    (b : ℚ) (x2 : FunctionSet.Vector P) (_out : FunctionSet.Vector P) :
    FunctionSet.Vector P :=
  let x1_call := x1.call
  let x1_apply := x1.apply
  let x2_call := x2.call
  let x2_apply := x2.apply
  let lincomb_vect := x1.vectorized || x2.vectorized
  let x1_call := if lincomb_vect && !x1.vectorized
    then vectorize_call x1_call else x1_call
  let x1_apply := if lincomb_vect && !x1.vectorized
    then PyFn.fn (vectorize_apply x1_call) else x1_apply
  let x2_call := if lincomb_vect && !x2.vectorized
    then vectorize_call x2_call else x2_call
  let x2_apply := if lincomb_vect && !x2.vectorized
    then PyFn.fn (vectorize_apply x2_call) else x2_apply
  { call := FunctionSpace.lincomb_call a b x1_call x2_call
    vectorized := lincomb_vect
    -- `if _apply_not_impl in (x1_apply, x2_apply)` on the locals (line 826)
    apply :=
      match x1_apply, x2_apply with
      | .fn g1, .fn g2 => .fn (FunctionSpace.lincomb_apply a b g1 g2)
      | _, _ => .notImpl }

/-! ## The pointwise product and quotient kernels (fspace.py lines 833-915) -/

/-- `product_apply` (fspace.py lines 859-865), per point: `x1_apply` fills
`out`, `x2_apply` fills `tmp`, then `out *= tmp`. -/
def FunctionSpace.product_apply {P : Type} (x1_apply x2_apply : P → ℚ)
    (x : P) : ℚ :=
  x1_apply x * x2_apply x

/-- `quotient_apply` (fspace.py lines 898-904), per point: `out /= tmp`. -/
def FunctionSpace.quotient_apply {P : Type} (x1_apply x2_apply : P → ℚ)
    (x : P) : ℚ :=
  x1_apply x / x2_apply x

/-- `FunctionSpace._multiply` (fspace.py lines 833-876).  Same capture and
vectorize-wrapping discipline as `_lincomb`.  NOTE (line 871): unlike
`_lincomb`, the apply-definedness check `if _apply_not_impl in
(x1._apply, x2._apply)` is on the *original attributes*, not the rebound
locals; the stored `product_apply` closure still uses the locals. -/
def FunctionSpace.multiply {P : Type} (x1 x2 _out : FunctionSet.Vector P) :
    FunctionSet.Vector P :=
  let x1_call := x1.call
  let x1_apply := x1.apply
  let x2_call := x2.call
  let x2_apply := x2.apply
  let product_vect := x1.vectorized || x2.vectorized
  let x1_call := if product_vect && !x1.vectorized
    then vectorize_call x1_call else x1_call
  let x1_apply := if product_vect && !x1.vectorized
    then PyFn.fn (vectorize_apply x1_call) else x1_apply
  let x2_call := if product_vect && !x2.vectorized
    then vectorize_call x2_call else x2_call
  let x2_apply := if product_vect && !x2.vectorized
    then PyFn.fn (vectorize_apply x2_call) else x2_apply
  { call := fun x => x1_call x * x2_call x  -- product_call, lines 855-857
    vectorized := product_vect
    apply :=
      match x1.apply, x2.apply with  -- originals, as in the source line 871
      | .fn _, .fn _ =>
        match x1_apply, x2_apply with
        | .fn g1, .fn g2 => .fn (FunctionSpace.product_apply g1 g2)
        | _, _ => .notImpl
      | _, _ => .notImpl }

/-- `FunctionSpace._divide` (fspace.py lines 878-915); identical structure to
`_multiply` with the pointwise quotient, and the same original-attribute
apply-definedness check (line 910). -/
def FunctionSpace.divide {P : Type} (x1 x2 _out : FunctionSet.Vector P) :
    FunctionSet.Vector P :=
  let x1_call := x1.call
  let x1_apply := x1.apply
  let x2_call := x2.call
  let x2_apply := x2.apply
  let quotient_vect := x1.vectorized || x2.vectorized
  let x1_call := if quotient_vect && !x1.vectorized
    then vectorize_call x1_call else x1_call
  let x1_apply := if quotient_vect && !x1.vectorized
    then PyFn.fn (vectorize_apply x1_call) else x1_apply
  let x2_call := if quotient_vect && !x2.vectorized
    then vectorize_call x2_call else x2_call
  let x2_apply := if quotient_vect && !x2.vectorized
    then PyFn.fn (vectorize_apply x2_call) else x2_apply
  { call := fun x => x1_call x / x2_call x  -- quotient_call, lines 894-896
    vectorized := quotient_vect
    apply :=
      match x1.apply, x2.apply with  -- originals, as in the source line 910
      | .fn _, .fn _ =>
        match x1_apply, x2_apply with
        | .fn g1, .fn g2 => .fn (FunctionSpace.quotient_apply g1 g2)
        | _, _ => .notImpl
      | _, _ => .notImpl }

/-! ## The scalar-power kernel (fspace.py lines 934-982) -/

/-- `ipow_posint` (fspace.py lines 947-959), per array entry: in-place
exponentiation by squaring.  `n = 1` returns the entry; even `n` squares and
halves; odd `n` squares, recurses, and multiplies by the saved copy of the
original entry.  The source recursion does not terminate at `n = 0`; that
input is unreachable from `power_call`/`power_apply` (both guard `p >= 1`),
and the model returns the entry unchanged there. -/
def FunctionSpace.ipow_posint (v : ℚ) (n : ℕ) : ℚ :=
  if n ≤ 1 then v
  else if n % 2 = 0 then FunctionSpace.ipow_posint (v * v) (n / 2)
  else FunctionSpace.ipow_posint (v * v) (n / 2) * v
termination_by n
decreasing_by all_goals exact Nat.div_lt_self (by omega) (by omega)

/-- `pow_posint` (fspace.py lines 939-945), per array entry: copies the
entry and runs the in-place recursion on the copy (for a scalar it computes
`x**n`, the same value). -/
def FunctionSpace.pow_posint (v : ℚ) (n : ℕ) : ℚ :=
  FunctionSpace.ipow_posint v n

/-- `power_call` (fspace.py lines 961-966), per point.  The scalar exponent
is modelled as `p : ℤ` (the claims concern integer exponents), so the source
guard `p == int(p) and p >= 1` reduces to `1 ≤ p`; the fallback
`x_call(x)**p` is the generic (here: `zpow`) power. -/
def FunctionSpace.power_call {P : Type} (x_call : P → ℚ) (p : ℤ) (x : P) : ℚ :=
  if 1 ≤ p then FunctionSpace.pow_posint (x_call x) p.toNat
  else (x_call x) ^ p

/-- `power_apply` (fspace.py lines 968-975), per point: `x_apply` fills
`out`, then the in-place recursion (or the fallback `out **= p`) is run on
the buffer. -/
def FunctionSpace.power_apply {P : Type} (x_apply : P → ℚ) (p : ℤ) (x : P) : ℚ :=
  if 1 ≤ p then FunctionSpace.ipow_posint (x_apply x) p.toNat
  else (x_apply x) ^ p

/-- `FunctionSpace._scalar_power` (fspace.py lines 934-982): captures
`x._call` / `x._apply`, overwrites all three fields of `out`; the result's
apply is the sentinel exactly when `x_apply == _apply_not_impl`
(lines 979-982). -/
def FunctionSpace.scalar_power {P : Type} (x : FunctionSet.Vector P) (p : ℤ)
    (_out : FunctionSet.Vector P) : FunctionSet.Vector P :=
  let x_call := x.call
  let x_apply := x.apply
  { call := FunctionSpace.power_call x_call p
    vectorized := x.vectorized
    apply :=
      match x_apply with
      | .notImpl => .notImpl
      | .fn g => .fn (FunctionSpace.power_apply g p) }

/-! ## Concrete example elements (point type `ℚ`) -/

/-- A non-vectorized element; by the constructor invariant its `_apply` is
the sentinel. -/
def exNonVec : FunctionSet.Vector ℚ :=
  { call := fun q => q + 2, apply := .notImpl, vectorized := false }

/-- A vectorized element with a defined in-place apply function. -/
def exVecApply : FunctionSet.Vector ℚ :=
  { call := fun q => q * 3, apply := .fn (fun q => q * 3), vectorized := true }

/-- A vectorized element without an in-place apply function. -/
def exVecNoApply : FunctionSet.Vector ℚ :=
  { call := fun q => q - 1, apply := .notImpl, vectorized := true }

/-- The Vector invariant of C9: a defined in-place apply function implies
the vectorized flag is set. -/
def applyImpliesVectorized {P : Type} (v : FunctionSet.Vector P) : Prop :=
  v.apply.isDefined = true → v.vectorized = true

/-! ## Vectorized evaluation with bounds checking
(`FunctionSet.Vector.__call__`, fspace.py lines 418-534) -/

/-- The exceptions the vectorized branch of `__call__` can raise:
`inputOutsideDomain` is the `ValueError` of line 496, `outputOutsideRange`
those of lines 512 and 527, `shapeMismatch` those of lines 507 and 521,
`notImplemented` the `NotImplementedError` raised by the
`_apply_not_impl` sentinel when invoked in-place. -/
inductive CallErr where
  | inputOutsideDomain : CallErr
  | outputOutsideRange : CallErr
  | shapeMismatch : CallErr
  | notImplemented : CallErr
deriving DecidableEq

/-- The vectorized branch of `FunctionSet.Vector.__call__` (fspace.py lines
469-534) for a valid input array `x` of points.  `dom`/`rng` are the
membership predicates of the domain and range (`contains_all` is `List.all`);
`out_shape` is the number of input points.  If `vec_bounds_check` is set, the
input points are validated against the domain before calling (lines
494-497); out-of-place (`out = none`), the `_call` result is shape-checked
and then range-checked (lines 503-514); in-place, the buffer is
shape-checked, `_apply` is invoked (raising if it is the sentinel), and the
result is range-checked (lines 515-529). -/
def FunctionSet.Vector.callVec {P : Type} (dom : P → Bool) (rng : ℚ → Bool)
    (fcall : List P → List ℚ) (fapply : Option (List P → List ℚ → List ℚ))
    (x : List P) (out : Option (List ℚ)) (vec_bounds_check : Bool) :
    Except CallErr (List ℚ) :=
  let out_shape := x.length
  if vec_bounds_check && !(x.all dom) then
    .error .inputOutsideDomain
  else
    match out with
    | none =>
      let res := fcall x
      if res.length ≠ out_shape then .error .shapeMismatch
      else if vec_bounds_check && !(res.all rng) then
        .error .outputOutsideRange
      else .ok res
    | some buf =>
      if buf.length ≠ out_shape then .error .shapeMismatch
      else
        match fapply with
        | none => .error .notImplemented
        | some g =>
          let res := g x buf
          if vec_bounds_check && !(res.all rng) then
            .error .outputOutsideRange
          else .ok res

/-! ## `OperatorTest.norm` (operator.py lines 30-48) -/

/-- The state of an `OperatorTest` (operator.py lines 30-33): the operator
under test and the optional stored norm estimate.  Norms are modelled as
exact rationals supplied by abstract norm functions. -/
structure OperatorTest (V W : Type) where
  operator : V → W
  operator_norm : Option ℚ

/-- The per-example estimate in `OperatorTest.norm` (operator.py lines
40-42): `result = operator(vec)`, `vecnorm = vec.norm()`, and the estimate
is `0` if `vecnorm == 0` else `result.norm() / vecnorm`. -/
def normEstimate {V W : Type} (A : V → W) (normV : V → ℚ) (normW : W → ℚ)
    (ex : String × V) : ℚ :=
  let result := A ex.2
  let vecnorm := normV ex.2
  if vecnorm = 0 then 0 else normW result / vecnorm

/-- `OperatorTest.norm` (operator.py lines 35-48): starting from `0.0`,
iterate the example battery of the operator's domain (`vector_examples`,
passed here as the list `examples`), update `operator_norm =
max(operator_norm, estimate)`, store the final value in the tester's
`operator_norm` field, and return it. -/
def OperatorTest.norm {V W : Type} (t : OperatorTest V W)
    (examples : List (String × V)) (normV : V → ℚ) (normW : W → ℚ) :
    ℚ × OperatorTest V W :=
  let operator_norm := examples.foldl
    (fun acc ex => max acc (normEstimate t.operator normV normW ex)) 0
  (operator_norm, { t with operator_norm := some operator_norm })

/-! ## Theorems for the claims -/

/-! ## Claims C1-C3 -/

/-- C1: the claim says `one()`'s in-place apply function writes `1.0` into
every entry of the supplied buffer.  The source's `one_apply` executes
`out.fill(0.0)` (fspace.py line 723): on the buffer `[2, 3, 5]` it produces
`[0, 0, 0]`, not `[1, 1, 1]`, while the out-of-place `one_vec` on a
three-point batch does produce ones — the in-place variant contradicts the
multiplicative-identity semantics of `one()`. -/
theorem one_apply_fills_zero_not_one :
    FunctionSpace.one_apply (37 : ℚ) [(2 : ℚ), 3, 5] = [0, 0, 0] ∧
    FunctionSpace.one_apply (37 : ℚ) [(2 : ℚ), 3, 5] ≠ [1, 1, 1] ∧
    FunctionSpace.one_vec [(2 : ℚ), 3, 5] = [1, 1, 1] := by
  refine ⟨rfl, ?_, rfl⟩
  decide

/-- C2: `lincomb(1, f, 0, g)` evaluates out-of-place to exactly the value of
`f` at every point: the zero-coefficient term `g` is elided and the unit
coefficient incurs no multiplication. -/
theorem lincomb_one_zero_eq_first {P : Type} (f g o : FunctionSet.Vector P)
    (x : P) : (FunctionSpace.lincomb 1 f 0 g o).call x = f.call x := by
  simp [FunctionSpace.lincomb, FunctionSpace.lincomb_call, vectorize_call]

/-- C3: the self-aliased call `lincomb(a, f, b, f, out=f)` yields an element
evaluating to `(a + b) * f x` at every point `x`, for all scalars `a`, `b`:
the operand functions are captured before `out` is overwritten, so aliasing
does not corrupt the result. -/
theorem lincomb_self_aliased {P : Type} (a b : ℚ) (f : FunctionSet.Vector P)
    (x : P) : (FunctionSpace.lincomb a f b f f).call x = (a + b) * f.call x := by
  simp only [FunctionSpace.lincomb, FunctionSpace.lincomb_call, vectorize_call]
  by_cases ha : a = 0 <;> by_cases hb : b = 0 <;>
    by_cases ha1 : a = 1 <;> by_cases hb1 : b = 1 <;>
      simp [ha, hb, ha1, hb1] <;> ring

/-- The exponentiation-by-squaring recursion computes the `n`-th power
(`n`-fold self-multiplication) for every positive `n`. -/
theorem FunctionSpace.ipow_posint_eq_pow (n : ℕ) : ∀ v : ℚ, 1 ≤ n →
    FunctionSpace.ipow_posint v n = v ^ n := by
  induction n using Nat.strong_induction_on with
  | _ n ih =>
    intro v hn
    rw [FunctionSpace.ipow_posint]
    by_cases h1 : n ≤ 1
    · have hn1 : n = 1 := by omega
      subst hn1
      simp
    · have hdiv1 : 1 ≤ n / 2 := by omega
      have hdivlt : n / 2 < n := by omega
      by_cases he : n % 2 = 0
      · rw [if_neg h1, if_pos he, ih (n / 2) hdivlt (v * v) hdiv1,
          ← sq, ← pow_mul]
        congr 1
        omega
      · rw [if_neg h1, if_neg he, ih (n / 2) hdivlt (v * v) hdiv1,
          ← sq, ← pow_mul, ← pow_succ]
        congr 1
        omega

/-- C4: for every positive integer exponent `n`, the element produced by
`scalar_power(f, n)` evaluates at every point to the `n`-fold pointwise
self-multiplication of `f`'s value there: the square-and-halve recursion is
equivalent to repeated multiplication. -/
theorem scalar_power_eq_iterated_mul {P : Type} (f o : FunctionSet.Vector P)
    (n : ℕ) (hn : 1 ≤ n) (x : P) :
    (FunctionSpace.scalar_power f (n : ℤ) o).call x = (f.call x) ^ n := by
  have hp : (1 : ℤ) ≤ (n : ℤ) := by exact_mod_cast hn
  simp only [FunctionSpace.scalar_power, FunctionSpace.power_call,
    FunctionSpace.pow_posint, if_pos hp, Int.toNat_natCast]
  exact FunctionSpace.ipow_posint_eq_pow n (f.call x) hn

/-- C4 witness: at `n = 5` and the concrete element `x ↦ x + 1` on the point
`2`, `scalar_power` yields `3 ^ 5 = 243`, the five-fold self-multiplication. -/
theorem scalar_power_eq_iterated_mul_witness :
    (FunctionSpace.scalar_power
        { call := fun q => q + 1, apply := .notImpl, vectorized := true }
        (5 : ℤ)
        { call := fun _ => 0, apply := .notImpl, vectorized := true }).call
        (2 : ℚ)
      = ((2 : ℚ) + 1) ^ 5 :=
  scalar_power_eq_iterated_mul
    { call := fun q => q + 1, apply := .notImpl, vectorized := true }
    { call := fun _ => 0, apply := .notImpl, vectorized := true }
    5 (by decide) 2

/-- C5 counterexample: the claim asserts the result of `lincomb` has a
defined apply iff *both* operands do.  Combining the non-vectorized operand
`exNonVec` (apply undefined) with the vectorized `exVecApply` (apply
defined), `_lincomb` rebinds the non-vectorized operand's apply to a
vectorized wrapper (fspace.py lines 766-768) and the definedness check on
line 826 inspects the rebound locals, so the result's apply *is* defined
although `exNonVec`'s is not. -/
theorem lincomb_apply_iff_counterexample :
    (FunctionSpace.lincomb 1 exNonVec 1 exVecApply exVecNoApply).apply.isDefined
        = true ∧
    exNonVec.apply.isDefined = false ∧
    ¬ ((FunctionSpace.lincomb 1 exNonVec 1 exVecApply
          exVecNoApply).apply.isDefined = true ↔
        (exNonVec.apply.isDefined = true ∧ exVecApply.apply.isDefined = true)) := by
  refine ⟨rfl, rfl, ?_⟩
  intro h
  have := h.mp rfl
  exact absurd this.1 (by decide)

/-- C5 amended: for `multiply` and `divide` the result's apply is defined
iff both operands' applies are defined (the source checks the original
attributes).  For `lincomb` the check is on the vectorize-rebound locals:
an operand that is non-vectorized while the other is vectorized counts as
having a defined apply, so the result's apply is defined iff both operands,
after that adjustment, have defined applies. -/
theorem apply_propagation_amended {P : Type} (a b : ℚ)
    (x1 x2 o : FunctionSet.Vector P) :
    ((FunctionSpace.multiply x1 x2 o).apply.isDefined =
      (x1.apply.isDefined && x2.apply.isDefined))
  ∧ ((FunctionSpace.divide x1 x2 o).apply.isDefined =
      (x1.apply.isDefined && x2.apply.isDefined))
  ∧ ((FunctionSpace.lincomb a x1 b x2 o).apply.isDefined =
      (((!x1.vectorized && x2.vectorized) || x1.apply.isDefined) &&
       ((!x2.vectorized && x1.vectorized) || x2.apply.isDefined))) := by
  obtain ⟨c1, ap1, v1⟩ := x1
  obtain ⟨c2, ap2, v2⟩ := x2
  cases ap1 <;> cases ap2 <;> cases v1 <;> cases v2 <;>
    simp [FunctionSpace.multiply, FunctionSpace.divide, FunctionSpace.lincomb,
      PyFn.isDefined]

/-- C8: calling `element` with an existing `Vector` of the set, no
apply-function override, and the requested vectorized flag equal to the
vector's own returns that very vector unchanged — no re-wrapping. -/
theorem element_returns_same_vector {P : Type} (dip : Bool)
    (v : FunctionSet.Vector P) :
    FunctionSet.element dip (.vec v) none v.vectorized =
      .ok (some v) := by
  simp [FunctionSet.element]

/-- C10: when `fcall` is already a `Vector` of the set and a non-`None`
`fapply` override is supplied, no branch of `element` constructs or returns
a vector: the method falls off the end and returns `None`. -/
theorem element_vector_with_fapply_returns_none {P : Type} (dip : Bool)
    (v : FunctionSet.Vector P) (pf : PyFn P) (vect : Bool) :
    FunctionSet.element dip (.vec v) (some pf) vect = .ok none := rfl

/-- C9: the constructor rejects a non-vectorized vector with a supplied
apply function with a value error, and every algebraic kernel (`lincomb`,
`multiply`, `divide`, `scalar_power`) preserves the invariant that a defined
apply implies the vectorized flag — equivalently, whenever the output's
vectorized flag is false its apply is the not-implemented marker. -/
theorem vector_invariant_preserved {P : Type} (a b : ℚ) (p : ℤ)
    (x1 x2 x o : FunctionSet.Vector P)
    (h1 : applyImpliesVectorized x1) (h2 : applyImpliesVectorized x2)
    (hx : applyImpliesVectorized x) :
    (∀ (dip : Bool) (fcall : P → ℚ) (pf : PyFn P),
        FunctionSet.Vector.init dip fcall (some pf) false =
          .error .valueErrApplyNotVectorized)
  ∧ applyImpliesVectorized (FunctionSpace.lincomb a x1 b x2 o)
  ∧ applyImpliesVectorized (FunctionSpace.multiply x1 x2 o)
  ∧ applyImpliesVectorized (FunctionSpace.divide x1 x2 o)
  ∧ applyImpliesVectorized (FunctionSpace.scalar_power x p o) := by
  refine ⟨fun dip fcall pf => by simp [FunctionSet.Vector.init], ?_, ?_, ?_, ?_⟩ <;>
    · obtain ⟨c1, ap1, v1⟩ := x1
      obtain ⟨c2, ap2, v2⟩ := x2
      obtain ⟨cx, apx, vx⟩ := x
      simp only [applyImpliesVectorized, PyFn.isDefined] at h1 h2 hx ⊢
      cases ap1 <;> cases ap2 <;> cases apx <;> cases v1 <;> cases v2 <;>
        cases vx <;>
        simp_all [FunctionSpace.lincomb, FunctionSpace.multiply,
          FunctionSpace.divide, FunctionSpace.scalar_power, PyFn.isDefined]

/-- C9 witness: concrete instantiation at non-vectorized operands — the
lincomb output is non-vectorized and satisfies the invariant. -/
theorem vector_invariant_preserved_witness :
    applyImpliesVectorized (FunctionSpace.lincomb 2 exNonVec 3 exNonVec exNonVec) := by
  have h := vector_invariant_preserved 2 3 4 exNonVec exNonVec exNonVec exNonVec
    (by intro h; exact absurd h (by decide))
    (by intro h; exact absurd h (by decide))
    (by intro h; exact absurd h (by decide))
  exact h.2.1

/-- C6: evaluating a vectorized element on a batch containing a point
outside the domain raises the input-bounds value error when
`bounds_check = true` (the default), and with `bounds_check = false` no
bounds value error (neither the domain nor the range one) is raised. -/
theorem bounds_check_raises_iff_enabled {P : Type} (dom : P → Bool)
    (rng : ℚ → Bool) (fcall : List P → List ℚ)
    (fapply : Option (List P → List ℚ → List ℚ)) (x : List P)
    (out : Option (List ℚ)) (p : P) (hmem : p ∈ x) (hp : dom p = false) :
    FunctionSet.Vector.callVec dom rng fcall fapply x out true =
        .error .inputOutsideDomain
  ∧ FunctionSet.Vector.callVec dom rng fcall fapply x out false ≠
        .error .inputOutsideDomain
  ∧ FunctionSet.Vector.callVec dom rng fcall fapply x out false ≠
        .error .outputOutsideRange := by
  have hall : x.all dom = false := by
    rw [Bool.eq_false_iff]
    intro hcontra
    rw [List.all_eq_true] at hcontra
    exact absurd (hcontra p hmem) (by simp [hp])
  refine ⟨by simp [FunctionSet.Vector.callVec, hall], ?_, ?_⟩ <;>
    · intro hcontra
      unfold FunctionSet.Vector.callVec at hcontra
      simp only [Bool.false_and, Bool.not_eq_true, if_neg] at hcontra
      rcases out with _ | buf <;> simp only at hcontra
      · split at hcontra <;> simp_all
      · split at hcontra
        · simp_all
        · rcases fapply with _ | g <;> simp_all

/-- C6 witness: the domain `{q | q = 0}`, batch `[0, 2]` containing the
outside point `2`, out-of-place: with the check enabled the input-bounds
error is raised; with it disabled no bounds error occurs. -/
theorem bounds_check_raises_iff_enabled_witness :
    FunctionSet.Vector.callVec (fun q : ℚ => q == 0) (fun _ => true)
        (fun l => l.map (fun _ => 0)) none [(0 : ℚ), 2] none true =
      .error .inputOutsideDomain
  ∧ FunctionSet.Vector.callVec (fun q : ℚ => q == 0) (fun _ => true)
        (fun l => l.map (fun _ => 0)) none [(0 : ℚ), 2] none false ≠
      .error .inputOutsideDomain
  ∧ FunctionSet.Vector.callVec (fun q : ℚ => q == 0) (fun _ => true)
        (fun l => l.map (fun _ => 0)) none [(0 : ℚ), 2] none false ≠
      .error .outputOutsideRange :=
  bounds_check_raises_iff_enabled (fun q : ℚ => q == 0) (fun _ => true)
    (fun l => l.map (fun _ => 0)) none [(0 : ℚ), 2] none 2
    (by decide) (by decide)

/-- The max-fold is bounded below by its initial accumulator. -/
theorem le_foldl_max {A : Type} (f : A → ℚ) (l : List A) (acc : ℚ) :
    acc ≤ l.foldl (fun m e => max m (f e)) acc := by
  induction l generalizing acc with
  | nil => exact le_refl acc
  | cons hd tl ih =>
    exact le_trans (le_max_left acc (f hd)) (ih (max acc (f hd)))

/-- Every list entry's value is bounded by the max-fold. -/
theorem mem_le_foldl_max {A : Type} (f : A → ℚ) (l : List A) :
    ∀ (acc : ℚ) (e : A), e ∈ l →
      f e ≤ l.foldl (fun m e => max m (f e)) acc := by
  induction l with
  | nil => intro acc e he; cases he
  | cons hd tl ih =>
    intro acc e he
    rcases List.mem_cons.mp he with rfl | htl
    · exact le_trans (le_max_right acc (f e)) (le_foldl_max f tl _)
    · exact ih (max acc (f hd)) e htl

/-- The max-fold is either the initial accumulator or attained at a list
entry. -/
theorem foldl_max_attained {A : Type} (f : A → ℚ) (l : List A) (acc : ℚ) :
    l.foldl (fun m e => max m (f e)) acc = acc ∨
    ∃ e ∈ l, l.foldl (fun m e => max m (f e)) acc = f e := by
  induction l generalizing acc with
  | nil => exact Or.inl rfl
  | cons hd tl ih =>
    rcases ih (max acc (f hd)) with heq | ⟨e, he, heq⟩
    · rcases max_cases acc (f hd) with ⟨hm, _⟩ | ⟨hm, _⟩
      · exact Or.inl (by rw [List.foldl_cons, heq, hm])
      · exact Or.inr ⟨hd, List.mem_cons_self hd tl, by rw [List.foldl_cons, heq, hm]⟩
    · exact Or.inr ⟨e, List.mem_cons_of_mem hd he, heq⟩

/-- C7: `OperatorTest.norm` returns the maximum over the example battery of
the ratios `‖A x‖ / ‖x‖` (a zero-norm example contributing `0`), and stores
that value in the tester's `operator_norm` field: the returned value is an
upper bound on every example's estimate, is at least the initial `0.0`, is
either `0` or attained by some example, and equals the stored field. -/
theorem operator_test_norm_is_max {V W : Type} (t : OperatorTest V W)
    (examples : List (String × V)) (normV : V → ℚ) (normW : W → ℚ) :
    ((t.norm examples normV normW).2.operator_norm =
        some (t.norm examples normV normW).1)
  ∧ (0 ≤ (t.norm examples normV normW).1)
  ∧ (∀ ex ∈ examples,
      normEstimate t.operator normV normW ex ≤ (t.norm examples normV normW).1)
  ∧ ((t.norm examples normV normW).1 = 0 ∨
      ∃ ex ∈ examples, (t.norm examples normV normW).1 =
        normEstimate t.operator normV normW ex) := by
  refine ⟨rfl, ?_, ?_, ?_⟩
  · exact le_foldl_max _ examples 0
  · intro ex hex
    exact mem_le_foldl_max _ examples 0 ex hex

  · exact foldl_max_attained _ examples 0

/-- C7 witness: for the identity operator on `ℚ` with norm `|·|` and the
two-example battery `[("zero", 0), ("two", 2)]`, the returned estimate is an
upper bound of both estimates, is stored in `operator_norm`, and is attained. -/
theorem operator_test_norm_is_max_witness :
    ((OperatorTest.norm ⟨fun v : ℚ => v, none⟩ [("zero", 0), ("two", 2)]
        (fun v => |v|) (fun w => |w|)).2.operator_norm =
      some (OperatorTest.norm ⟨fun v : ℚ => v, none⟩ [("zero", 0), ("two", 2)]
        (fun v => |v|) (fun w => |w|)).1)
  ∧ (0 ≤ (OperatorTest.norm ⟨fun v : ℚ => v, none⟩ [("zero", 0), ("two", 2)]
        (fun v => |v|) (fun w => |w|)).1)
  ∧ (∀ ex ∈ [(("zero", 0) : String × ℚ), ("two", 2)],
      normEstimate (fun v : ℚ => v) (fun v => |v|) (fun w => |w|) ex ≤
        (OperatorTest.norm ⟨fun v : ℚ => v, none⟩ [("zero", 0), ("two", 2)]
          (fun v => |v|) (fun w => |w|)).1)
  ∧ ((OperatorTest.norm ⟨fun v : ℚ => v, none⟩ [("zero", 0), ("two", 2)]
        (fun v => |v|) (fun w => |w|)).1 = 0 ∨
      ∃ ex ∈ [(("zero", 0) : String × ℚ), ("two", 2)],
        (OperatorTest.norm ⟨fun v : ℚ => v, none⟩ [("zero", 0), ("two", 2)]
          (fun v => |v|) (fun w => |w|)).1 =
          normEstimate (fun v : ℚ => v) (fun v => |v|) (fun w => |w|) ex) :=
  operator_test_norm_is_max ⟨fun v : ℚ => v, none⟩ [("zero", 0), ("two", 2)]
    (fun v => |v|) (fun w => |w|)
